import Mathlib

/-!
Verification of the Baly-Ticketes ticket API against its specification.

The development shallowly embeds the Express/Prisma route handlers of
`src/routes/tickets.ts` (src/unnamed/part_002) and the route registration
order of the two server variants in `src/backend/src/server.ts`.

Conventions of the embedding:
* timestamps are integers counting milliseconds (UTC epoch), so the
  rendered ISO strings of the source are abstracted to their numeric
  values and `toISOString().split('T')[0]` to the UTC day index;
* the Prisma ticket table is a `List Ticket`; `findMany` with
  `orderBy createdAt desc` is a stable insertion sort on `createdAt`
  descending, `skip`/`take` are `List.drop`/`List.take`;
* fallible handlers return `Except ApiError`, an error carrying the
  HTTP status passed to `createError` together with its message;
* Modelled from the spec: the Validation Layer (`middleware/validation.js`,
  whose source is not part of the repository snapshot) requires, per §4.2,
  that `start_date`/`end_date`/`tripDate` be syntactically valid calendar
  dates and `page`/`limit` positive integers; validated calendar dates are
  therefore embedded as UTC day indices (`Nat`), which JavaScript
  `new Date("YYYY-MM-DD")` parses to the UTC midnight of that day.
-/

deriving instance DecidableEq for Except

namespace BalyTickets

/-- Milliseconds in one day. -/
def msPerDay : Int := 86400000

/-- Milliseconds of the last representable instant of a day
(`setHours(23, 59, 59, 999)` adds this to the day's midnight). -/
def endOfDayMs : Int := 86399999

/-- A row of the Prisma `ticket` table (schema of §3 / the Prisma model). -/
structure Ticket where
  id : Nat
  tripId : String
  tripDate : Int
  driverId : Int
  reason : String
  city : String
  serviceType : String
  customerPhone : String
  agentName : String
  createdAt : Int
deriving DecidableEq

/-- The serialized ticket shape produced by the list and export handlers:
`tripDate.toISOString().split('T')[0]` is abstracted to the UTC day index,
`createdAt.toISOString()` to the millisecond value. -/
structure TicketView where
  id : Nat
  tripId : String
  tripDateDay : Int
  driverId : Int
  reason : String
  city : String
  serviceType : String
  customerPhone : String
  agentName : String
  createdAt : Int
deriving DecidableEq

/-- The `tickets.map(ticket => ({...}))` projection of the handlers. -/
def viewOf (t : Ticket) : TicketView :=
  { id := t.id
    tripId := t.tripId
    tripDateDay := t.tripDate.fdiv msPerDay
    driverId := t.driverId
    reason := t.reason
    city := t.city
    serviceType := t.serviceType
    customerPhone := t.customerPhone
    agentName := t.agentName
    createdAt := t.createdAt }

/-- The validated `GetTicketsQuery`: `start_date`/`end_date` are calendar
dates (UTC day indices) and `page`/`limit` positive integers, as enforced by
the spec-modelled Validation Layer; `none` is an absent parameter. -/
structure Query where
  reason : Option String
  start_date : Option Nat
  end_date : Option Nat
  page : Option Nat
  limit : Option Nat
deriving DecidableEq

/-- The validated `CreateTicketBody`: `tripDate` is a calendar date. -/
structure CreateBody where
  tripId : String
  tripDateDay : Nat
  driverId : Int
  reason : String
  city : String
  serviceType : String
  customerPhone : String
  agentName : String
deriving DecidableEq

/-- An error produced with `createError(message, status)`. -/
structure ApiError where
  status : Nat
  message : String
deriving DecidableEq

/-- A plain JSON success answer (`res.json({message})`, status 200). -/
structure OkMessage where
  status : Nat
  message : String
deriving DecidableEq

/-- The success body of `GET /api/tickets`. -/
structure ListResponse where
  page : Nat
  totalPages : Nat
  totalTickets : Nat
  tickets : List TicketView
deriving DecidableEq

/-- The CSV document produced by `GET /api/tickets/export`: the `fields`
header and one `TicketView` per data row. -/
structure Csv where
  header : List String
  rows : List TicketView
deriving DecidableEq

/-- The success body of `POST /api/tickets`. -/
structure CreateResponse where
  status : Nat
  message : String
  ticketId : Nat
deriving DecidableEq

/-- Database state: the ticket table plus the autoincrement sequence that
assigns the next `id`. -/
structure Db where
  tickets : List Ticket
  nextId : Nat
deriving DecidableEq

/-! ### JavaScript `parseInt` (no radix argument) -/

/-- JavaScript whitespace skipped by `parseInt`. -/
def isJsWhitespace (c : Char) : Bool :=
  c == ' ' || c == '\t' || c == '\n' || c == '\r' ||
    c.toNat == 11 || c.toNat == 12

/-- Decimal digit test on code points. -/
def isDigit (c : Char) : Bool :=
  48 ≤ c.toNat && c.toNat ≤ 57

/-- Hexadecimal digit test on code points. -/
def isHexDigit (c : Char) : Bool :=
  isDigit c || (97 ≤ c.toNat && c.toNat ≤ 102) || (65 ≤ c.toNat && c.toNat ≤ 70)

/-- Value of a decimal digit. -/
def digitVal (c : Char) : Nat := c.toNat - 48

/-- Value of a hexadecimal digit. -/
def hexVal (c : Char) : Nat :=
  if isDigit c then c.toNat - 48
  else if 97 ≤ c.toNat then c.toNat - 87
  else c.toNat - 55

/-- Accumulate the leading run of digits in the given radix; `none` when the
run is empty (`parseInt` yields `NaN`). -/
def parseDigitsIn (isD : Char → Bool) (val : Char → Nat) (radix : Nat)
    (cs : List Char) : Option Nat :=
  let ds := cs.takeWhile isD
  if ds.isEmpty then none
  else some (ds.foldl (fun a c => radix * a + val c) 0)

/-- Decimal value of a digit run. -/
def digitsToNat (ds : List Char) : Nat :=
  ds.foldl (fun a c => 10 * a + digitVal c) 0

/-- `parseInt` after whitespace and sign: a `0x`/`0X` prefix switches to
radix 16 (ECMAScript `parseInt` with an undefined radix), otherwise the
leading decimal digit run is taken. -/
def parseIntNoSign (cs : List Char) : Option Nat :=
  match cs with
  | c0 :: c1 :: r =>
    if c0 == '0' && (c1 == 'x' || c1 == 'X') then
      parseDigitsIn isHexDigit hexVal 16 r
    else
      parseDigitsIn isDigit digitVal 10 cs
  | _ => parseDigitsIn isDigit digitVal 10 cs

/-- JavaScript `parseInt(s)`: skip whitespace, optional sign, optional hex
prefix, leading digit run; `none` models `NaN`. -/
def jsParseInt (s : String) : Option Int :=
  let cs := s.toList.dropWhile isJsWhitespace
  match cs with
  | [] => none
  | c :: rest =>
    if c == '-' then (parseIntNoSign rest).map (fun n => -(n : Int))
    else if c == '+' then (parseIntNoSign rest).map (fun n => (n : Int))
    else (parseIntNoSign cs).map (fun n => (n : Int))

/-- The delete identifier as claim C10 reads it: the value of the leading
run of decimal digits, absent when there is none. Stated from the claim's
words, to be compared with `jsParseInt`. -/
def leadingDecimalValue (s : String) : Option Nat :=
  if (s.toList.takeWhile isDigit).isEmpty then none
  else some (digitsToNat (s.toList.takeWhile isDigit))

/-! ### Where-clause construction (tickets.ts lines 80-108 / 154-182) -/

/-- JavaScript truthiness of an optional string (`if (reason)`): an empty
string is falsy. -/
def truthy (r : Option String) : Option String :=
  match r with
  | some s => if s == "" then none else some s
  | none => none

/-- The `where.tripDate` bounds `{gte, lte}` the handlers build, as a pair,
from the validated (hence midnight-parsed) date parameters:
both bounds given → the literal parses; only `start_date` → its parse up to
`setHours(23,59,59,999)` of the same day; only `end_date` → its
`setHours(0,0,0,0)` (a no-op on a midnight parse) up to the literal parse. -/
def codeTripDateRange (sd ed : Option Nat) : Option (Int × Int) :=
  match sd, ed with
  | some s, some e => some ((s : Int) * msPerDay, (e : Int) * msPerDay)
  | some s, none => some ((s : Int) * msPerDay, (s : Int) * msPerDay + endOfDayMs)
  | none, some e => some ((e : Int) * msPerDay, (e : Int) * msPerDay)
  | none, none => none

/-- The tripDate range as the specification states it: single-bound ranges
span the named day from 00:00:00 to its last instant; with both bounds the
range runs between the two bounds, each taken at its literal clock time as
supplied (asymmetric edge case of §9). Stated from the spec's words, to be
compared with `codeTripDateRange`. -/
def specTripDateRange (sd ed : Option Nat) : Option (Int × Int) :=
  match sd, ed with
  | some s, some e => some ((s : Int) * msPerDay, (e : Int) * msPerDay)
  | some s, none => some ((s : Int) * msPerDay, (s : Int) * msPerDay + endOfDayMs)
  | none, some e => some ((e : Int) * msPerDay, (e : Int) * msPerDay + endOfDayMs)
  | none, none => none

/-- Whether a timestamp lies in an optional inclusive `{gte, lte}` range. -/
def tripDateOk (range : Option (Int × Int)) (ts : Int) : Bool :=
  match range with
  | none => true
  | some (g, l) => decide (g ≤ ts) && decide (ts ≤ l)

/-- The full `where` object of the list/export handlers. -/
structure WhereClause where
  reason : Option String
  tripDate : Option (Int × Int)
deriving DecidableEq

/-- Build the `where` clause from the query parameters exactly as both the
list and the export handler do. -/
def buildWhere (r : Option String) (sd ed : Option Nat) : WhereClause :=
  { reason := truthy r
    tripDate := codeTripDateRange sd ed }

/-- Whether the `reason` part of the clause accepts a ticket. -/
def reasonOk (r : Option String) (t : Ticket) : Bool :=
  match r with
  | none => true
  | some s => t.reason == s

/-- Prisma record matching for the built `where` clause. -/
def ticketMatches (w : WhereClause) (t : Ticket) : Bool :=
  reasonOk w.reason t && tripDateOk w.tripDate t.tripDate

/-- The records a query's filter matches (`prisma.ticket.count({where})`
counts exactly these). -/
def matchingTickets (store : List Ticket) (q : Query) : List Ticket :=
  store.filter (ticketMatches (buildWhere q.reason q.start_date q.end_date))

/-! ### `orderBy: { createdAt: 'desc' }` -/

/-- The ordering used by `findMany`: newer (larger `createdAt`) first. -/
def createdAtDescOrder (a b : Ticket) : Prop :=
  b.createdAt ≤ a.createdAt

instance : DecidableRel createdAtDescOrder :=
  fun a b => inferInstanceAs (Decidable (b.createdAt ≤ a.createdAt))

instance : IsTotal Ticket createdAtDescOrder :=
  ⟨fun a b => le_total b.createdAt a.createdAt⟩

instance : IsTrans Ticket createdAtDescOrder :=
  ⟨fun _ _ _ h1 h2 => le_trans h2 h1⟩

/-- The database's `orderBy createdAt desc`, embedded as a stable sort. -/
def sortByCreatedAtDesc (l : List Ticket) : List Ticket :=
  List.insertionSort createdAtDescOrder l

/-! ### Handlers -/

/-- Effective page number: `const { page = '1' } = req.query`. -/
def effPage (q : Query) : Nat := q.page.getD 1

/-- Effective page size: `const { limit = '20' } = req.query`. -/
def effLimit (q : Query) : Nat := q.limit.getD 20

/-- `findMany({where, skip, take, orderBy})` with
`skip = (page-1)*limit` and `take = limit`. -/
def listSlice (store : List Ticket) (q : Query) : List Ticket :=
  (((sortByCreatedAtDesc (matchingTickets store q)).drop
      ((effPage q - 1) * effLimit q)).take (effLimit q))

/-- The 404 error thrown when a handler finds no tickets. -/
def noTicketsError : ApiError :=
  { status := 404, message := "No tickets found for given filters" }

/-- `GET /api/tickets` (tickets.ts lines 66-147): count the matches, fetch
the ordered page, fail with 404 when the fetched page is empty, otherwise
answer with totals and the serialized page. -/
def listTickets (store : List Ticket) (q : Query) : Except ApiError ListResponse :=
  if (listSlice store q).isEmpty then Except.error noTicketsError
  else Except.ok
    { page := effPage q
      totalPages := ((matchingTickets store q).length + effLimit q - 1) / effLimit q
      totalTickets := (matchingTickets store q).length
      tickets := (listSlice store q).map viewOf }

/-- The fixed `fields` array of the CSV export. -/
def exportFields : List String :=
  [ "id", "tripId", "tripDate", "driverId", "reason", "city",
    "serviceType", "customerPhone", "agentName", "createdAt" ]

/-- `GET /api/tickets/export` (tickets.ts lines 150-232): same filter as the
list handler, no pagination, 404 on an empty result, otherwise the CSV with
the fixed header. The handler reads only `reason`, `start_date`, `end_date`
from the query. -/
def exportTickets (store : List Ticket) (q : Query) : Except ApiError Csv :=
  if (sortByCreatedAtDesc (matchingTickets store q)).isEmpty then
    Except.error noTicketsError
  else Except.ok
    { header := exportFields
      rows := (sortByCreatedAtDesc (matchingTickets store q)).map viewOf }

/-- The new row `prisma.ticket.create` inserts: the body's fields, the
sequence-assigned `id`, `tripDate` parsed from the validated calendar date,
and the clock's `createdAt`. -/
def mkTicket (db : Db) (now : Int) (b : CreateBody) : Ticket :=
  { id := db.nextId
    tripId := b.tripId
    tripDate := (b.tripDateDay : Int) * msPerDay
    driverId := b.driverId
    reason := b.reason
    city := b.city
    serviceType := b.serviceType
    customerPhone := b.customerPhone
    agentName := b.agentName
    createdAt := now }

/-- `POST /api/tickets` (tickets.ts lines 30-63) on a validated body:
insert the single new row and answer 201 with its id. -/
def createTicket (db : Db) (now : Int) (b : CreateBody) : CreateResponse × Db :=
  ({ status := 201, message := "Ticket created successfully", ticketId := db.nextId },
   { tickets := db.tickets ++ [mkTicket db now b], nextId := db.nextId + 1 })

/-- `DELETE /api/tickets/:id` (tickets.ts lines 235-261): `parseInt` the
path id (400 on `NaN`), `findUnique` (404 when absent), then delete the
row. The second component is the resulting table state. -/
def deleteTicket (store : List Ticket) (idStr : String) :
    Except ApiError OkMessage × List Ticket :=
  match jsParseInt idStr with
  | none => (Except.error { status := 400, message := "Invalid ticket ID" }, store)
  | some tid =>
    match store.find? (fun u => (u.id : Int) == tid) with
    | none => (Except.error { status := 404, message := "Ticket not found" }, store)
    | some _ =>
      (Except.ok { status := 200, message := "Ticket deleted successfully" },
       store.filter (fun u => !((u.id : Int) == tid)))

/-! ### Server route dispatch (`src/backend/src/server.ts`, both variants)

The static-file middleware is elided (the modeled paths match no bundled
asset), and requests under `/api/tickets` are answered by the router
embedded above, summarized as `apiRouter`. -/

/-- `path.startsWith pre`, embedded over character lists so that concrete
route dispatches evaluate. -/
def pathStartsWith (path pre : String) : Bool :=
  pre.toList.isPrefixOf path.toList

/-- Possible answers of the server wiring for a GET request. -/
inductive ServerReply where
  | apiRouter
  | rootMessage
  | healthOk (timestamp : Int)
  | spaIndex
  | routeNotFound
  | noResponse
deriving DecidableEq

/-- GET dispatch of the first variant: router at `/api/tickets`, then
`GET /`, then `GET /health`, then the terminal `'*'` 404 handler. -/
def dispatchGetV1 (path : String) (now : Int) : ServerReply :=
  if pathStartsWith path ("/api/tickets") then ServerReply.apiRouter
  else if path == "/" then ServerReply.rootMessage
  else if path == "/health" then ServerReply.healthOk now
  else ServerReply.routeNotFound

/-- GET dispatch of the second variant: router at `/api/tickets`, then the
SPA catch-all `app.get('*')` — registered before `app.get('/health')` —
which sends `index.html` for non-`/api` paths and neither responds nor
forwards for the rest, so the later `/health` route is unreachable. -/
def dispatchGetV2 (path : String) (_now : Int) : ServerReply :=
  if pathStartsWith path ("/api/tickets") then ServerReply.apiRouter
  else if !(pathStartsWith path ("/api")) then ServerReply.spaIndex
  else ServerReply.noResponse

/-! ### Concrete sample data for witnesses and counterexamples -/

/-- A sample ticket whose `id` and `createdAt` both equal `i`. -/
def sampleT (i : Nat) : Ticket :=
  { id := i
    tripId := "TRIP"
    tripDate := 0
    driverId := 7
    reason := "Other"
    city := "Baghdad"
    serviceType := "Taxi"
    customerPhone := "07701234567"
    agentName := "Agent"
    createdAt := (i : Int) }

/-- The query with every parameter absent. -/
def emptyQuery : Query :=
  { reason := none, start_date := none, end_date := none, page := none, limit := none }

/-- A 15-record store, ids and creation times 1..15. -/
def store15 : List Ticket :=
  [ sampleT 1, sampleT 2, sampleT 3, sampleT 4, sampleT 5, sampleT 6, sampleT 7,
    sampleT 8, sampleT 9, sampleT 10, sampleT 11, sampleT 12, sampleT 13,
    sampleT 14, sampleT 15 ]

/-- `page=2&limit=10`, no filters. -/
def page2Limit10 : Query :=
  { reason := none, start_date := none, end_date := none, page := some 2, limit := some 10 }

/-- `page=2` with the default limit, no filters. -/
def page2Query : Query :=
  { reason := none, start_date := none, end_date := none, page := some 2, limit := none }

/-! ### Helper lemmas -/

theorem length_sortByCreatedAtDesc (l : List Ticket) :
    (sortByCreatedAtDesc l).length = l.length :=
  List.length_insertionSort _ _

theorem mem_sortByCreatedAtDesc {l : List Ticket} {t : Ticket} :
    t ∈ sortByCreatedAtDesc l ↔ t ∈ l :=
  List.mem_insertionSort _

theorem perm_sortByCreatedAtDesc (l : List Ticket) :
    (sortByCreatedAtDesc l).Perm l :=
  List.perm_insertionSort _ _

theorem pairwise_sortByCreatedAtDesc (l : List Ticket) :
    (sortByCreatedAtDesc l).Pairwise createdAtDescOrder :=
  List.sorted_insertionSort _ _

/-- Everything a successful list answer determines. -/
theorem listTickets_ok_inv {store : List Ticket} {q : Query} {resp : ListResponse}
    (h : listTickets store q = Except.ok resp) :
    resp.page = effPage q ∧
    resp.totalPages = ((matchingTickets store q).length + effLimit q - 1) / effLimit q ∧
    resp.totalTickets = (matchingTickets store q).length ∧
    resp.tickets = (listSlice store q).map viewOf ∧
    listSlice store q ≠ [] := by
  unfold listTickets at h
  by_cases he : (listSlice store q).isEmpty
  · rw [if_pos he] at h
    exact absurd h (by simp)
  · rw [if_neg he] at h
    injection h with h
    subst h
    exact ⟨rfl, rfl, rfl, rfl, by simpa [List.isEmpty_iff] using he⟩

/-- A failing list answer is the 404 for an empty fetched page. -/
theorem listTickets_error_inv {store : List Ticket} {q : Query} {e : ApiError}
    (h : listTickets store q = Except.error e) :
    e = noTicketsError ∧ listSlice store q = [] := by
  unfold listTickets at h
  by_cases he : (listSlice store q).isEmpty
  · rw [if_pos he] at h
    injection h with h
    exact ⟨h.symm, by simpa [List.isEmpty_iff] using he⟩
  · rw [if_neg he] at h
    exact absurd h (by simp)

/-- Everything a successful export answer determines. -/
theorem exportTickets_ok_inv {store : List Ticket} {q : Query} {csv : Csv}
    (h : exportTickets store q = Except.ok csv) :
    csv.header = exportFields ∧
    csv.rows = (sortByCreatedAtDesc (matchingTickets store q)).map viewOf ∧
    matchingTickets store q ≠ [] := by
  unfold exportTickets at h
  by_cases he : (sortByCreatedAtDesc (matchingTickets store q)).isEmpty
  · rw [if_pos he] at h
    exact absurd h (by simp)
  · rw [if_neg he] at h
    injection h with h
    subst h
    refine ⟨rfl, rfl, fun hnil => ?_⟩
    rw [List.isEmpty_iff] at he
    exact he (by rw [hnil]; rfl)

/-- A failing export answer is the 404 for an empty match set. -/
theorem exportTickets_error_inv {store : List Ticket} {q : Query} {e : ApiError}
    (h : exportTickets store q = Except.error e) :
    e = noTicketsError ∧ matchingTickets store q = [] := by
  unfold exportTickets at h
  by_cases he : (sortByCreatedAtDesc (matchingTickets store q)).isEmpty
  · rw [if_pos he] at h
    injection h with h
    rw [List.isEmpty_iff] at he
    have : (matchingTickets store q).length = 0 := by
      rw [← length_sortByCreatedAtDesc, he]
      rfl
    exact ⟨h.symm, List.length_eq_zero.1 this⟩
  · rw [if_neg he] at h
    exact absurd h (by simp)

/-- Records fetched for a page come from the store and satisfy the filter. -/
theorem mem_listSlice {store : List Ticket} {q : Query} {t : Ticket}
    (h : t ∈ listSlice store q) :
    t ∈ store ∧ ticketMatches (buildWhere q.reason q.start_date q.end_date) t = true := by
  unfold listSlice at h
  have h1 := List.drop_subset _ _ (List.take_subset _ _ h)
  have h2 := mem_sortByCreatedAtDesc.1 h1
  exact List.mem_filter.1 h2

/-- The leading digit run of a list, standard `takeWhile` arithmetic. -/
theorem takeWhile_append_stop {α : Type} {p : α → Bool} :
    ∀ (ds : List α) (c : α) (rest : List α),
      (∀ d ∈ ds, p d = true) → p c = false →
      (ds ++ c :: rest).takeWhile p = ds
  | [], c, rest, _, hc => by simp [List.takeWhile_cons, hc]
  | d :: ds, c, rest, hd, hc => by
    have hpd : p d = true := hd d (by simp)
    simp only [List.cons_append, List.takeWhile_cons, hpd, if_true]
    rw [takeWhile_append_stop ds c rest (fun x hx => hd x (by simp [hx])) hc]

/-- Sorting yields the empty list exactly for the empty table. -/
theorem sortByCreatedAtDesc_eq_nil {l : List Ticket} :
    sortByCreatedAtDesc l = [] ↔ l = [] := by
  constructor <;> intro h
  · have hlen := length_sortByCreatedAtDesc l
    rw [h] at hlen
    exact List.length_eq_zero.1 hlen.symm
  · rw [h]
    rfl

/-- With no query parameters the built clause accepts every record. -/
theorem ticketMatches_trivial (u : Ticket) :
    ticketMatches (buildWhere none none none) u = true := rfl

/-- A decimal digit is none of the characters `parseInt` treats specially. -/
theorem isDigit_facts {d : Char} (h : isDigit d = true) :
    isJsWhitespace d = false ∧ (d == '-') = false ∧ (d == '+') = false ∧
    (d == 'x') = false ∧ (d == 'X') = false := by
  have h' : 48 ≤ d.toNat ∧ d.toNat ≤ 57 := by simpa [isDigit] using h
  have hne : ∀ c : Char, d.toNat ≠ c.toNat → (d == c) = false := by
    intro c hc
    rw [beq_eq_false_iff_ne]
    intro heq
    exact hc (by rw [heq])
  have hsp : (' ').toNat = 32 := rfl
  have htb : ('\t').toNat = 9 := rfl
  have hnl : ('\n').toNat = 10 := rfl
  have hcr : ('\r').toNat = 13 := rfl
  have hmi : ('-').toNat = 45 := rfl
  have hpl : ('+').toNat = 43 := rfl
  have hx : ('x').toNat = 120 := rfl
  have hX : ('X').toNat = 88 := rfl
  refine ⟨?_, ?_, ?_, ?_, ?_⟩
  · unfold isJsWhitespace
    rw [hne ' ' (by omega), hne '\t' (by omega), hne '\n' (by omega),
        hne '\r' (by omega)]
    simp only [Bool.false_or]
    have h11 : (d.toNat == 11) = false := by
      rw [beq_eq_false_iff_ne]
      omega
    have h12 : (d.toNat == 12) = false := by
      rw [beq_eq_false_iff_ne]
      omega
    rw [h11, h12]
    rfl
  · exact hne '-' (by omega)
  · exact hne '+' (by omega)
  · exact hne 'x' (by omega)
  · exact hne 'X' (by omega)

/-! ### Claims -/

/-- C1, counterexample: with one stored ticket matching the (empty) filter
but `page=2`, the list handler fails with the 404 "not found" error even
though a nonzero number of records match the filter, refuting "fails with a
404-class error if and only if zero records match the supplied filter". -/
theorem c1_counterexample :
    matchingTickets [sampleT 1] page2Query ≠ [] ∧
    listTickets [sampleT 1] page2Query = Except.error noTicketsError := by
  decide

/-- C1, amended: a List request fails — always with the 404 "not found"
error — exactly when the requested page slice is empty (in particular
whenever zero records match the filter), an Export request fails exactly
when zero records match the filter, and a successful answer never carries an
empty page or an empty CSV. -/
theorem c1_amended (store : List Ticket) (q : Query) :
    ((∃ e, listTickets store q = Except.error e) ↔ listSlice store q = []) ∧
    (matchingTickets store q = [] → listTickets store q = Except.error noTicketsError) ∧
    (∀ resp, listTickets store q = Except.ok resp → resp.tickets ≠ []) ∧
    ((∃ e, exportTickets store q = Except.error e) ↔ matchingTickets store q = []) ∧
    (∀ csv, exportTickets store q = Except.ok csv → csv.rows ≠ []) ∧
    (∀ e, listTickets store q = Except.error e → e.status = 404) ∧
    (∀ e, exportTickets store q = Except.error e → e.status = 404) := by
  have hof : listSlice store q = [] → listTickets store q = Except.error noTicketsError := by
    intro h
    unfold listTickets
    rw [if_pos (by rw [h]; rfl)]
  refine ⟨⟨fun ⟨e, he⟩ => (listTickets_error_inv he).2, fun h => ⟨_, hof h⟩⟩,
    ?_, ?_, ⟨fun ⟨e, he⟩ => (exportTickets_error_inv he).2, ?_⟩, ?_, ?_, ?_⟩
  · intro h
    apply hof
    unfold listSlice
    rw [sortByCreatedAtDesc_eq_nil.2 h]
    simp
  · intro resp hok
    have h1 := (listTickets_ok_inv hok).2.2.2.1
    have h2 := (listTickets_ok_inv hok).2.2.2.2
    rw [h1]
    simpa [List.map_eq_nil_iff] using h2
  · intro h
    refine ⟨noTicketsError, ?_⟩
    unfold exportTickets
    rw [if_pos (by rw [sortByCreatedAtDesc_eq_nil.2 h]; rfl)]
  · intro csv hok
    have h1 := (exportTickets_ok_inv hok).2.1
    have h2 := (exportTickets_ok_inv hok).2.2
    rw [h1]
    simp only [ne_eq, List.map_eq_nil_iff]
    rw [sortByCreatedAtDesc_eq_nil]
    exact h2
  · intro e he
    rw [(listTickets_error_inv he).1]
    rfl
  · intro e he
    rw [(exportTickets_error_inv he).1]
    rfl

/-- C1, witness for the amended claim at a concrete store and query. -/
theorem c1_amended_witness :
    ((∃ e, listTickets [sampleT 1] emptyQuery = Except.error e) ↔
      listSlice [sampleT 1] emptyQuery = []) ∧
    (matchingTickets [sampleT 1] emptyQuery = [] →
      listTickets [sampleT 1] emptyQuery = Except.error noTicketsError) ∧
    (∀ resp, listTickets [sampleT 1] emptyQuery = Except.ok resp → resp.tickets ≠ []) ∧
    ((∃ e, exportTickets [sampleT 1] emptyQuery = Except.error e) ↔
      matchingTickets [sampleT 1] emptyQuery = []) ∧
    (∀ csv, exportTickets [sampleT 1] emptyQuery = Except.ok csv → csv.rows ≠ []) ∧
    (∀ e, listTickets [sampleT 1] emptyQuery = Except.error e → e.status = 404) ∧
    (∀ e, exportTickets [sampleT 1] emptyQuery = Except.error e → e.status = 404) :=
  c1_amended [sampleT 1] emptyQuery

/-- C9: when a nonzero number of records match the filter but the requested
pagination window starts at or past the end of the match list, the list
handler fails with the 404 "not found" error instead of returning an empty
page with the correct totals. -/
theorem c9_page_past_end (store : List Ticket) (q : Query)
    (hm : matchingTickets store q ≠ [])
    (hskip : (matchingTickets store q).length ≤ (effPage q - 1) * effLimit q) :
    listTickets store q = Except.error noTicketsError ∧
    (matchingTickets store q).length ≠ 0 := by
  have hdrop : (sortByCreatedAtDesc (matchingTickets store q)).drop
      ((effPage q - 1) * effLimit q) = [] :=
    List.drop_eq_nil_of_le (by rw [length_sortByCreatedAtDesc]; exact hskip)
  have hslice : listSlice store q = [] := by
    unfold listSlice
    rw [hdrop]
    simp
  constructor
  · unfold listTickets
    rw [if_pos (by rw [hslice]; rfl)]
  · intro h0
    exact hm (List.length_eq_zero.1 h0)

/-- C9, witness: one matching record, `page=2` with the default limit. -/
theorem c9_witness :
    matchingTickets [sampleT 1] page2Query ≠ [] ∧
    (matchingTickets [sampleT 1] page2Query).length ≤
      (effPage page2Query - 1) * effLimit page2Query ∧
    (listTickets [sampleT 1] page2Query = Except.error noTicketsError ∧
      (matchingTickets [sampleT 1] page2Query).length ≠ 0) :=
  ⟨by decide, by decide, c9_page_past_end [sampleT 1] page2Query (by decide) (by decide)⟩

/-- A sample ticket on a given trip day. -/
def sampleDayT (day : Nat) (i : Nat) : Ticket :=
  { sampleT i with tripDate := (day : Int) * msPerDay }

/-- C2: for any record whose `tripDate` is a calendar date (a UTC midnight,
as the validated create path stores), the handlers' filter accepts the
record exactly when its `tripDate` timestamp lies inclusively in the range
the specification describes — `[start_date 00:00:00, start_date 23:59:59]`
with only `start_date`, `[end_date 00:00:00, end_date 23:59:59]` with only
`end_date`, and both bounds at their literal supplied clock time when both
are given — alongside the exact `reason` match. -/
theorem c2_trip_date_filter (r : Option String) (sd ed : Option Nat) (t : Ticket)
    (d : Nat) (h : t.tripDate = (d : Int) * msPerDay) :
    ticketMatches (buildWhere r sd ed) t =
      (reasonOk (truthy r) t && tripDateOk (specTripDateRange sd ed) t.tripDate) := by
  have key : tripDateOk (codeTripDateRange sd ed) t.tripDate =
      tripDateOk (specTripDateRange sd ed) t.tripDate := by
    rcases sd with _ | s <;> rcases ed with _ | e
    · rfl
    · simp only [codeTripDateRange, specTripDateRange, tripDateOk, h]
      rw [Bool.eq_iff_iff]
      simp only [Bool.and_eq_true, decide_eq_true_eq]
      unfold msPerDay endOfDayMs
      omega
    · rfl
    · rfl
  unfold ticketMatches buildWhere
  rw [key]

/-- C2, witness: a record on day 1 against an `end_date=1` filter. -/
theorem c2_witness :
    (sampleDayT 1 3).tripDate = ((1 : Nat) : Int) * msPerDay ∧
    ticketMatches (buildWhere (some "Other") none (some 1)) (sampleDayT 1 3) =
      (reasonOk (truthy (some "Other")) (sampleDayT 1 3) &&
        tripDateOk (specTripDateRange none (some 1)) (sampleDayT 1 3).tripDate) :=
  ⟨by decide, c2_trip_date_filter (some "Other") none (some 1) (sampleDayT 1 3) 1 (by decide)⟩

/-- C3: when at least one record matches the filter, the export succeeds
with a CSV whose column header is exactly
`id,tripId,tripDate,driverId,reason,city,serviceType,customerPhone,agentName,createdAt`
and whose data-row count equals the `totalTickets` any successful List call
with the same filter reports. -/
theorem c3_export_matches_list (store : List Ticket) (q qlist : Query)
    (resp : ListResponse)
    (hsame : qlist.reason = q.reason ∧ qlist.start_date = q.start_date ∧
      qlist.end_date = q.end_date)
    (hne : matchingTickets store q ≠ [])
    (hok : listTickets store qlist = Except.ok resp) :
    ∃ csv, exportTickets store q = Except.ok csv ∧
      csv.header = exportFields ∧
      csv.rows.length = resp.totalTickets := by
  have hmq : matchingTickets store qlist = matchingTickets store q := by
    unfold matchingTickets
    rw [hsame.1, hsame.2.1, hsame.2.2]
  have hexp : exportTickets store q = Except.ok
      { header := exportFields
        rows := (sortByCreatedAtDesc (matchingTickets store q)).map viewOf } := by
    unfold exportTickets
    rw [if_neg ?hne]
    case hne =>
      intro habs
      exact hne (sortByCreatedAtDesc_eq_nil.1 (List.isEmpty_iff.1 habs))
  refine ⟨_, hexp, rfl, ?_⟩
  have htot := (listTickets_ok_inv hok).2.2.1
  rw [htot, hmq]
  simp only [List.length_map]
  exact length_sortByCreatedAtDesc _

/-- C3, witness at a one-record store, both queries without parameters. -/
theorem c3_witness :
    (emptyQuery.reason = emptyQuery.reason ∧
      emptyQuery.start_date = emptyQuery.start_date ∧
      emptyQuery.end_date = emptyQuery.end_date) ∧
    matchingTickets [sampleT 1] emptyQuery ≠ [] ∧
    listTickets [sampleT 1] emptyQuery =
      Except.ok ⟨1, 1, 1, [viewOf (sampleT 1)]⟩ ∧
    (∃ csv, exportTickets [sampleT 1] emptyQuery = Except.ok csv ∧
      csv.header = exportFields ∧
      csv.rows.length = (ListResponse.mk 1 1 1 [viewOf (sampleT 1)]).totalTickets) :=
  ⟨⟨rfl, rfl, rfl⟩, by decide, by decide,
    c3_export_matches_list [sampleT 1] emptyQuery emptyQuery
      ⟨1, 1, 1, [viewOf (sampleT 1)]⟩ ⟨rfl, rfl, rfl⟩ (by decide) (by decide)⟩

/-- C4: `page` defaults to 1 and `limit` to 20; a successful List answer
carries exactly the records at offsets `(page-1)*limit` through
`(page-1)*limit + limit - 1` of the matching records ordered by `createdAt`
descending (the order being a permutation of the matching records that is
pairwise non-increasing on `createdAt`), together with the total match count
and `totalPages = ceil(totalTickets/limit)` — witnessed below at `page=2`,
`limit=10` over 15 matching records, which yields records 11–15 and
`totalPages = 2`. -/
theorem c4_pagination (store : List Ticket) (q : Query) (resp : ListResponse)
    (hl : 1 ≤ effLimit q)
    (hok : listTickets store q = Except.ok resp) :
    effPage emptyQuery = 1 ∧ effLimit emptyQuery = 20 ∧
    resp.page = effPage q ∧
    resp.tickets = (((sortByCreatedAtDesc (matchingTickets store q)).drop
        ((effPage q - 1) * effLimit q)).take (effLimit q)).map viewOf ∧
    (sortByCreatedAtDesc (matchingTickets store q)).Perm (matchingTickets store q) ∧
    (sortByCreatedAtDesc (matchingTickets store q)).Pairwise createdAtDescOrder ∧
    resp.totalTickets = (matchingTickets store q).length ∧
    resp.totalPages = ((matchingTickets store q).length + effLimit q - 1) / effLimit q ∧
    (matchingTickets store q).length ≤ resp.totalPages * effLimit q ∧
    resp.totalPages * effLimit q < (matchingTickets store q).length + effLimit q := by
  obtain ⟨hpage, htp, htot, htk, -⟩ := listTickets_ok_inv hok
  refine ⟨rfl, rfl, hpage, htk, perm_sortByCreatedAtDesc _,
    pairwise_sortByCreatedAtDesc _, htot, htp, ?_, ?_⟩ <;>
  · rw [htp]
    have hdm := Nat.div_add_mod ((matchingTickets store q).length + effLimit q - 1)
      (effLimit q)
    have hmlt : ((matchingTickets store q).length + effLimit q - 1) % effLimit q <
        effLimit q := Nat.mod_lt _ (by omega)
    rw [Nat.mul_comm] at hdm
    generalize hP : ((matchingTickets store q).length + effLimit q - 1) / effLimit q *
      effLimit q = P at hdm ⊢
    omega

/-- C4, witness: `page=2&limit=10` over the 15-record store returns the five
oldest records (records 11–15 of the descending order) with `totalPages=2`,
and the defaults and ceiling facts instantiate. -/
theorem c4_witness :
    1 ≤ effLimit page2Limit10 ∧
    listTickets store15 page2Limit10 = Except.ok
      ⟨2, 2, 15, [viewOf (sampleT 5), viewOf (sampleT 4), viewOf (sampleT 3),
        viewOf (sampleT 2), viewOf (sampleT 1)]⟩ ∧
    (effPage emptyQuery = 1 ∧ effLimit emptyQuery = 20 ∧
      (ListResponse.mk 2 2 15 [viewOf (sampleT 5), viewOf (sampleT 4),
        viewOf (sampleT 3), viewOf (sampleT 2), viewOf (sampleT 1)]).page =
        effPage page2Limit10 ∧
      (ListResponse.mk 2 2 15 [viewOf (sampleT 5), viewOf (sampleT 4),
        viewOf (sampleT 3), viewOf (sampleT 2), viewOf (sampleT 1)]).tickets =
        (((sortByCreatedAtDesc (matchingTickets store15 page2Limit10)).drop
          ((effPage page2Limit10 - 1) * effLimit page2Limit10)).take
          (effLimit page2Limit10)).map viewOf ∧
      (sortByCreatedAtDesc (matchingTickets store15 page2Limit10)).Perm
        (matchingTickets store15 page2Limit10) ∧
      (sortByCreatedAtDesc (matchingTickets store15 page2Limit10)).Pairwise
        createdAtDescOrder ∧
      (ListResponse.mk 2 2 15 [viewOf (sampleT 5), viewOf (sampleT 4),
        viewOf (sampleT 3), viewOf (sampleT 2), viewOf (sampleT 1)]).totalTickets =
        (matchingTickets store15 page2Limit10).length ∧
      (ListResponse.mk 2 2 15 [viewOf (sampleT 5), viewOf (sampleT 4),
        viewOf (sampleT 3), viewOf (sampleT 2), viewOf (sampleT 1)]).totalPages =
        ((matchingTickets store15 page2Limit10).length + effLimit page2Limit10 - 1) /
          effLimit page2Limit10 ∧
      (matchingTickets store15 page2Limit10).length ≤
        (ListResponse.mk 2 2 15 [viewOf (sampleT 5), viewOf (sampleT 4),
          viewOf (sampleT 3), viewOf (sampleT 2), viewOf (sampleT 1)]).totalPages *
          effLimit page2Limit10 ∧
      (ListResponse.mk 2 2 15 [viewOf (sampleT 5), viewOf (sampleT 4),
        viewOf (sampleT 3), viewOf (sampleT 2), viewOf (sampleT 1)]).totalPages *
          effLimit page2Limit10 <
        (matchingTickets store15 page2Limit10).length + effLimit page2Limit10) :=
  ⟨by decide, by decide,
    c4_pagination store15 page2Limit10
      ⟨2, 2, 15, [viewOf (sampleT 5), viewOf (sampleT 4), viewOf (sampleT 3),
        viewOf (sampleT 2), viewOf (sampleT 1)]⟩ (by decide) (by decide)⟩

/-- C5: a delete whose path identifier does not parse as an integer fails
with the 400 "Invalid ticket ID" error, and one whose parsed integer
matches no stored record fails with the 404 "Ticket not found" error; in
both cases the store is returned unchanged. -/
theorem c5_delete_errors (store : List Ticket) (idStr : String) :
    (jsParseInt idStr = none →
      deleteTicket store idStr =
        (Except.error ⟨400, "Invalid ticket ID"⟩, store)) ∧
    (∀ tid : Int, jsParseInt idStr = some tid →
      store.find? (fun u => (u.id : Int) == tid) = none →
      deleteTicket store idStr =
        (Except.error ⟨404, "Ticket not found"⟩, store)) := by
  constructor
  · intro h
    unfold deleteTicket
    rw [h]
  · intro tid h1 h2
    simp only [deleteTicket, h1, h2]

/-- C5, witness: a non-numeric identifier and an absent numeric one. -/
theorem c5_witness :
    deleteTicket [sampleT 1] ("abc") =
      (Except.error ⟨400, "Invalid ticket ID"⟩, [sampleT 1]) ∧
    deleteTicket [sampleT 1] ("99") =
      (Except.error ⟨404, "Ticket not found"⟩, [sampleT 1]) :=
  ⟨(c5_delete_errors [sampleT 1] ("abc")).1 (by decide),
   (c5_delete_errors [sampleT 1] ("99")).2 99 (by decide) (by decide)⟩

/-- C6: deleting an identifier that parses to the id of a stored record
answers 200 with the success message, removes the record permanently (the
resulting store holds no record with that id, so no subsequent successful
List result can show it), and an immediately repeated delete of the same
identifier fails with the 404 error leaving the store as it was. -/
theorem c6_delete_existing (store : List Ticket) (idStr : String) (tid : Int)
    (t : Ticket)
    (hp : jsParseInt idStr = some tid)
    (hf : store.find? (fun u => (u.id : Int) == tid) = some t) :
    (deleteTicket store idStr).1 =
      Except.ok ⟨200, "Ticket deleted successfully"⟩ ∧
    (deleteTicket store idStr).2 = store.filter (fun u => !((u.id : Int) == tid)) ∧
    (∀ u ∈ (deleteTicket store idStr).2, (u.id : Int) ≠ tid) ∧
    (∀ q resp, listTickets (deleteTicket store idStr).2 q = Except.ok resp →
      ∀ v ∈ resp.tickets, (v.id : Int) ≠ tid) ∧
    deleteTicket (deleteTicket store idStr).2 idStr =
      (Except.error ⟨404, "Ticket not found"⟩, (deleteTicket store idStr).2) := by
  have hdel : deleteTicket store idStr =
      (Except.ok ⟨200, "Ticket deleted successfully"⟩,
       store.filter (fun u => !((u.id : Int) == tid))) := by
    simp only [deleteTicket, hp, hf]
  have hgone : ∀ u ∈ store.filter (fun u => !((u.id : Int) == tid)),
      (u.id : Int) ≠ tid := by
    intro u hu
    have := (List.mem_filter.1 hu).2
    simpa using this
  have hn : (store.filter (fun u => !((u.id : Int) == tid))).find?
      (fun u => (u.id : Int) == tid) = none := by
    apply List.find?_eq_none.2
    intro x hx
    simpa using hgone x hx
  have h2 : (deleteTicket store idStr).2 =
      store.filter (fun u => !((u.id : Int) == tid)) := by
    rw [hdel]
  refine ⟨by rw [hdel], h2, ?_, ?_, ?_⟩
  · rw [h2]
    exact hgone
  · intro q resp hok v hv
    have hresp := (listTickets_ok_inv hok).2.2.2.1
    rw [hresp] at hv
    obtain ⟨u, hu, rfl⟩ := List.mem_map.1 hv
    have hmem := (mem_listSlice hu).1
    rw [h2] at hmem
    exact hgone u hmem
  · rw [h2]
    simp only [deleteTicket, hp, hn]

/-- C6, witness: delete id 2 from a two-record store. -/
theorem c6_witness :
    jsParseInt ("2") = some 2 ∧
    [sampleT 1, sampleT 2].find? (fun u => (u.id : Int) == 2) = some (sampleT 2) ∧
    ((deleteTicket [sampleT 1, sampleT 2] ("2")).1 =
        Except.ok ⟨200, "Ticket deleted successfully"⟩ ∧
      (deleteTicket [sampleT 1, sampleT 2] ("2")).2 =
        [sampleT 1, sampleT 2].filter (fun u => !((u.id : Int) == 2)) ∧
      (∀ u ∈ (deleteTicket [sampleT 1, sampleT 2] ("2")).2, (u.id : Int) ≠ 2) ∧
      (∀ q resp,
        listTickets (deleteTicket [sampleT 1, sampleT 2] ("2")).2 q = Except.ok resp →
        ∀ v ∈ resp.tickets, (v.id : Int) ≠ 2) ∧
      deleteTicket (deleteTicket [sampleT 1, sampleT 2] ("2")).2 ("2") =
        (Except.error ⟨404, "Ticket not found"⟩,
         (deleteTicket [sampleT 1, sampleT 2] ("2")).2)) :=
  ⟨by decide, by decide,
    c6_delete_existing [sampleT 1, sampleT 2] ("2") 2 (sampleT 2)
      (by decide) (by decide)⟩

/-- C7: a validated create inserts exactly one new record carrying the
sequence-assigned id and the server clock's `createdAt`, answers 201 with
that id, changes nothing else; it is not idempotent — an identical second
request appends a second record under a distinct id — and the created
record is retrievable through a successful List call. -/
theorem c7_create (db : Db) (now now2 : Int) (b : CreateBody) :
    (createTicket db now b).1.status = 201 ∧
    (createTicket db now b).1.ticketId = db.nextId ∧
    (createTicket db now b).2.tickets = db.tickets ++ [mkTicket db now b] ∧
    (createTicket db now b).2.nextId = db.nextId + 1 ∧
    (mkTicket db now b).id = db.nextId ∧
    (mkTicket db now b).createdAt = now ∧
    (createTicket (createTicket db now b).2 now2 b).1.ticketId ≠
      (createTicket db now b).1.ticketId ∧
    (createTicket (createTicket db now b).2 now2 b).2.tickets =
      db.tickets ++ [mkTicket db now b, mkTicket (createTicket db now b).2 now2 b] ∧
    (mkTicket (createTicket db now b).2 now2 b).id ≠ (mkTicket db now b).id ∧
    (∃ q resp, listTickets (createTicket db now b).2.tickets q = Except.ok resp ∧
      viewOf (mkTicket db now b) ∈ resp.tickets) := by
  refine ⟨rfl, rfl, rfl, rfl, rfl, rfl, by simp [createTicket], ?_, by simp [createTicket, mkTicket], ?_⟩
  · show (db.tickets ++ [mkTicket db now b]) ++ [mkTicket (createTicket db now b).2 now2 b] = _
    rw [List.append_assoc]
    rfl
  · set t := mkTicket db now b with ht
    set L := db.tickets ++ [t] with hL
    have hLne : L ≠ [] := by
      simp [hL]
    refine ⟨⟨none, none, none, some 1, some L.length⟩, ?_⟩
    set q : Query := ⟨none, none, none, some 1, some L.length⟩ with hq
    have hmatch : matchingTickets L q = L := by
      unfold matchingTickets
      exact List.filter_eq_self.2 (fun a _ => ticketMatches_trivial a)
    have hslice : listSlice L q = sortByCreatedAtDesc L := by
      unfold listSlice
      rw [hmatch]
      have hpage : effPage q = 1 := rfl
      have hlim : effLimit q = L.length := rfl
      rw [hpage, hlim]
      simp only [Nat.sub_self, Nat.zero_mul, List.drop_zero]
      exact List.take_of_length_le (le_of_eq (length_sortByCreatedAtDesc L))
    cases hres : listTickets L q with
    | error e =>
      exfalso
      have hnil := (listTickets_error_inv hres).2
      rw [hslice] at hnil
      exact hLne (sortByCreatedAtDesc_eq_nil.1 hnil)
    | ok resp =>
      refine ⟨resp, hres, ?_⟩
      have hresp := (listTickets_ok_inv hres).2.2.2.1
      rw [hresp, hslice]
      exact List.mem_map_of_mem viewOf
        (mem_sortByCreatedAtDesc.2 (by simp [hL]))

/-- C8: `GET /health` answers the OK/timestamp payload in the first server
variant, but in the second variant the SPA catch-all registered before the
health route intercepts the request and serves the SPA entry document, so
the health payload is never produced there — the claim's "for both server
variants" fails on the second variant. -/
theorem c8_health_divergence :
    (∀ now : Int, dispatchGetV1 ("/health") now = ServerReply.healthOk now) ∧
    (∀ now : Int, dispatchGetV2 ("/health") now = ServerReply.spaIndex) ∧
    (∀ now : Int, dispatchGetV2 ("/health") now ≠ ServerReply.healthOk now) := by
  have h2 : ∀ now : Int, dispatchGetV2 ("/health") now = ServerReply.spaIndex :=
    fun _ => rfl
  refine ⟨fun now => rfl, h2, fun now h => ?_⟩
  rw [h2 now] at h
  exact absurd h (by simp)

/-- C10, counterexample: the identifier `0x10` begins with the decimal
digit `0` followed by a non-digit, so the claim reads it as the leading
integer 0; `parseInt` instead honours the hexadecimal prefix and yields 16,
and the delete of an existing record with id 0 fails with 404 instead of
succeeding. -/
theorem c10_counterexample :
    leadingDecimalValue ("0x10") = some 0 ∧
    jsParseInt ("0x10") = some 16 ∧
    deleteTicket [sampleT 0] ("0x10") =
      (Except.error ⟨404, "Ticket not found"⟩, [sampleT 0]) ∧
    (deleteTicket [sampleT 0] ("0x10")).1 ≠
      Except.ok ⟨200, "Ticket deleted successfully"⟩ := by
  decide

/-- C10, amended: an identifier that begins with decimal digits followed by
a non-digit is treated as the leading decimal integer — and the delete then
succeeds whenever a record with that id exists — except when the identifier
starts with `0x`/`0X`, which `parseInt` reads as a hexadecimal prefix; the
400 error occurs exactly when `parseInt` yields `NaN` under these rules. -/
theorem c10_amended (s : String) (ds : List Char) (c : Char) (rest : List Char)
    (hs : s.toList = ds ++ c :: rest)
    (hne : ds ≠ [])
    (hds : ∀ d ∈ ds, isDigit d = true)
    (hc : isDigit c = false)
    (hhex : ¬(ds = ['0'] ∧ (c = 'x' ∨ c = 'X'))) :
    jsParseInt s = some ((digitsToNat ds : Nat) : Int) ∧
    (∀ (store : List Ticket) (t : Ticket),
      store.find? (fun u => (u.id : Int) == ((digitsToNat ds : Nat) : Int)) = some t →
      (deleteTicket store s).1 = Except.ok ⟨200, "Ticket deleted successfully"⟩) ∧
    (∀ (store : List Ticket) (idStr : String),
      (deleteTicket store idStr).1 = Except.error ⟨400, "Invalid ticket ID"⟩ ↔
        jsParseInt idStr = none) := by
  obtain ⟨d0, ds', rfl⟩ : ∃ d0 ds', ds = d0 :: ds' := by
    cases ds with
    | nil => exact absurd rfl hne
    | cons a l => exact ⟨a, l, rfl⟩
  have hd0 := hds d0 (List.mem_cons_self d0 ds')
  have f0 := isDigit_facts hd0
  have hdw : s.toList.dropWhile isJsWhitespace = d0 :: (ds' ++ c :: rest) := by
    rw [hs, List.cons_append, List.dropWhile_cons, f0.1]
    simp
  have hdec : parseDigitsIn isDigit digitVal 10 ((d0 :: ds') ++ c :: rest) =
      some (digitsToNat (d0 :: ds')) := by
    unfold parseDigitsIn
    rw [takeWhile_append_stop (d0 :: ds') c rest hds hc]
    simp only [List.isEmpty_cons, Bool.false_eq_true, if_false]
    rfl
  have hp2 : parseIntNoSign (d0 :: (ds' ++ c :: rest)) =
      some (digitsToNat (d0 :: ds')) := by
    cases ds' with
    | nil =>
      simp only [List.nil_append]
      by_cases hd00 : d0 = '0'
      · have hcx : (c == 'x') = false := by
          rw [beq_eq_false_iff_ne]
          intro hcc
          exact hhex ⟨by rw [hd00], Or.inl hcc⟩
        have hcX : (c == 'X') = false := by
          rw [beq_eq_false_iff_ne]
          intro hcc
          exact hhex ⟨by rw [hd00], Or.inr hcc⟩
        unfold parseIntNoSign
        simp only [hcx, hcX, Bool.or_self, Bool.and_false, Bool.false_eq_true, if_false]
        simpa using hdec
      · have hd0f : (d0 == '0') = false := beq_eq_false_iff_ne.2 hd00
        unfold parseIntNoSign
        simp only [hd0f, Bool.false_and, Bool.false_eq_true, if_false]
        simpa using hdec
    | cons d1 ds2 =>
      have hd1 := hds d1 (by simp)
      have f1 := isDigit_facts hd1
      simp only [List.cons_append]
      unfold parseIntNoSign
      simp only [f1.2.2.2.1, f1.2.2.2.2, Bool.or_self, Bool.and_false,
        Bool.false_eq_true, if_false]
      simpa using hdec
  have hp1 : jsParseInt s = some ((digitsToNat (d0 :: ds') : Nat) : Int) := by
    unfold jsParseInt
    rw [hdw]
    simp only [f0.2.1, f0.2.2.1, Bool.false_eq_true, if_false, hp2]
    simp
  have h400 : ∀ (store : List Ticket) (idStr : String),
      (deleteTicket store idStr).1 = Except.error ⟨400, "Invalid ticket ID"⟩ ↔
        jsParseInt idStr = none := by
    intro store idStr
    cases h : jsParseInt idStr with
    | none => simp [deleteTicket, h]
    | some tid =>
      cases hf : store.find? (fun u => (u.id : Int) == tid) with
      | none => simp [deleteTicket, h, hf]
      | some u => simp [deleteTicket, h, hf]
  refine ⟨hp1, ?_, h400⟩
  intro store t hfind
  simp only [deleteTicket, hp1, hfind]

/-- C10, witness for the amended claim: identifier `12abc` against a store
holding a record with id 12. -/
theorem c10_amended_witness :
    ("12abc").toList = ['1', '2'] ++ 'a' :: ['b', 'c'] ∧
    (['1', '2'] : List Char) ≠ [] ∧
    (∀ d ∈ (['1', '2'] : List Char), isDigit d = true) ∧
    isDigit 'a' = false ∧
    ¬((['1', '2'] : List Char) = ['0'] ∧ ('a' = 'x' ∨ 'a' = 'X')) ∧
    (jsParseInt ("12abc") = some ((digitsToNat ['1', '2'] : Nat) : Int) ∧
      (∀ (store : List Ticket) (t : Ticket),
        store.find? (fun u => (u.id : Int) == ((digitsToNat ['1', '2'] : Nat) : Int)) =
          some t →
        (deleteTicket store ("12abc")).1 =
          Except.ok ⟨200, "Ticket deleted successfully"⟩) ∧
      (∀ (store : List Ticket) (idStr : String),
        (deleteTicket store idStr).1 = Except.error ⟨400, "Invalid ticket ID"⟩ ↔
          jsParseInt idStr = none)) :=
  ⟨by decide, by decide, by decide, by decide, by decide,
    c10_amended ("12abc") ['1', '2'] 'a' ['b', 'c'] (by decide) (by decide)
      (by decide) (by decide) (by decide)⟩

end BalyTickets
